import Mathlib

/-!
Verification development for the x402 + Flaunch priced-proxy backend
(`src/new-backend/server.py`).  The Python module keeps an in-memory
registry `FlaunchTokenStore.apis : Dict[str, dict]` mapping an endpoint
path to a mutable API-config dict.  We embed that registry as an
association list of `(endpoint, ApiConfig)` pairs (Python dicts keep
insertion order and have unique keys), float prices as exact rationals,
and every outbound HTTP interaction as an explicit oracle argument.

Conventions of the embedding:
* Python `dict.get(k, d)` on an optional field becomes `Option` plus
  `getD d`.
* Python truthiness of a string field (`if token_address:`) is an
  `Option String` filtered through `truthyStr` (empty strings are falsy).
* A function that the source wraps in `try/except` returning `None`
  becomes a total function into `Option`; raising-and-catching is the
  `none` result, so totality of the Lean definition is the model of
  "never raises to the caller".
* Wall-clock elements (`time.sleep`, `created_at`, the 30 s interval)
  carry no data relevant to the claims and are elided; the 60 s polling
  loop of `create_api` becomes an explicit attempt count.
-/

/-- A JSON value, as produced by `response.json()`.  Numbers are exact
rationals (JSON numbers are decimal literals; Python floats are modelled
exactly). -/
inductive JsonVal where
  | jnull : JsonVal
  | jbool : Bool → JsonVal
  | jnum : ℚ → JsonVal
  | jstr : String → JsonVal
  | jarr : List JsonVal → JsonVal
  | jobj : List (String × JsonVal) → JsonVal

/-- Numeric value of a digit list (most significant first). -/
def digitsVal (cs : List Char) : ℕ :=
  cs.foldl (fun acc c => acc * 10 + (c.toNat - 48)) 0

/-- Model of Python `float(s)` on a string: optional sign, decimal
digits with an optional fractional part.  Exotic accepted spellings
(exponents, `inf`, `nan`, underscores) are not modelled; on them and on
any other malformed string the source raises `ValueError`, caught by the
caller, which is `none` here. -/
def pyFloatOfString (s : String) : Option ℚ :=
  let cs := s.trim.toList
  let signed : ℚ × List Char :=
    match cs with
    | '-' :: rest => (-1, rest)
    | '+' :: rest => (1, rest)
    | _ => (1, cs)
  let sgn := signed.1
  let body := signed.2
  let intPart := body.takeWhile (fun c => c.isDigit)
  let rest := body.drop intPart.length
  match rest with
  | [] =>
    if intPart.isEmpty then none
    else some (sgn * (digitsVal intPart : ℚ))
  | '.' :: frac =>
    if frac.all (fun c => c.isDigit) ∧ ¬ (intPart.isEmpty ∧ frac.isEmpty) then
      some (sgn * ((digitsVal intPart : ℚ) +
        (digitsVal frac : ℚ) / (10 ^ frac.length : ℚ)))
    else none
  | _ => none

/-- Model of Python `float(v)` on a JSON value: numbers pass through,
booleans coerce to 0/1, strings are parsed, anything else
(`None`, lists, dicts) raises, i.e. `none`. -/
def pyFloat : JsonVal → Option ℚ
  | .jnum q => some q
  | .jbool b => some (if b then 1 else 0)
  | .jstr s => pyFloatOfString s
  | _ => none

/-- `fields.get k` on a JSON object body: first binding of the key. -/
def jfield (fields : List (String × JsonVal)) (k : String) : Option JsonVal :=
  (fields.find? (fun kv => kv.1 == k)).map (fun kv => kv.2)

/-- The dict returned by `FlaunchTokenStore.get_token_price_data`
(fields `token_price_usd`, `volume_24h_usd`, `volume_7d_usd`). -/
structure PriceData where
  token_price_usd : ℚ
  volume_24h_usd : ℚ
  volume_7d_usd : ℚ
  deriving DecidableEq

/-- Outcome of one outbound `requests.get`/`requests.post` call:
a timeout, another request exception, or a response carrying a status
code, the JSON parse of the body (`none` when `.json()` raises) and the
raw body text. -/
inductive HttpResult where
  | timeout : HttpResult
  | connError : String → HttpResult
  | response : Nat → Option JsonVal → String → HttpResult

/-- Body parsing of `get_token_price_data` on a 200 response
(`server.py` lines 319-336): `data.get("price", {})` then
`float(price_obj.get("priceUSDC", 0))`, then the two volume figures.
Any step that would raise in Python (`.get` on a non-dict, `float` on an
unconvertible value) makes the whole parse `none`, matching the
enclosing `except Exception: return None`. -/
def parsePriceBody (data : JsonVal) : Option PriceData :=
  match data with
  | .jobj fields =>
    match (jfield fields "price").getD (.jobj []) with
    | .jobj pf =>
      match pyFloat ((jfield pf "priceUSDC").getD (.jnum 0)) with
      | none => none
      | some tp =>
        match (jfield fields "volume").getD (.jobj []) with
        | .jobj vf =>
          match pyFloat ((jfield vf "volumeUSDC24h").getD (.jnum 0)) with
          | none => none
          | some v24 =>
            match pyFloat ((jfield vf "volumeUSDC7d").getD (.jnum 0)) with
            | none => none
            | some v7 => some ⟨tp, v24, v7⟩
        | _ => none
    | _ => none
  | _ => none

/-- `FlaunchTokenStore.get_token_price_data` (`server.py` 307-341),
with the single outbound HTTP call abstracted as its `HttpResult`.
Non-200 responses fall through to `return None`; request exceptions are
caught and become `None`. -/
def get_token_price_data (r : HttpResult) : Option PriceData :=
  match r with
  | .timeout => none
  | .connError _ => none
  | .response status body _ =>
    if status = 200 then
      match body with
      | none => none
      | some data => parsePriceBody data
    else none

/-- One API-config dict held in `FlaunchTokenStore.apis`.  Fields the
claims never touch (`input_format`, `output_format`, `created_at`,
`starting_market_cap`, `queue_position`, `flaunch_link`, `preexisting`)
are elided.  Fields a config may lack in the source dict are `Option`;
`price_multiplier` is optional because `finalize_token_launch` guards
`if "price_multiplier" not in api_config`. -/
structure ApiConfig where
  name : String
  endpoint : String
  target_url : String
  method : String
  wallet_address : String
  description : String
  token_address : Option String
  job_id : Option String
  symbol : Option String
  token_uri : Option String
  tx_hash : Option String
  price_multiplier : Option ℚ
  price_data : Option PriceData
  token_price_usd : Option ℚ
  api_price_usd : Option ℚ
  deriving DecidableEq

/-- The registry `store.apis`, as an insertion-ordered association list
with unique keys. -/
abbrev Registry := List (String × ApiConfig)

/-- Python truthiness of an optional string (`if s:`): absent and empty
strings are falsy. -/
def truthyStr (o : Option String) : Option String :=
  match o with
  | some s => if s = "" then none else some s
  | none => none

/-- `api_config.get("token_address")` used in a boolean context: the
route counts as DEPLOYED exactly when this is `some`. -/
def tokenOf (cfg : ApiConfig) : Option String :=
  truthyStr cfg.token_address

/-- `store.apis[e]` / `e in store.apis`: lookup by endpoint key. -/
def lookupApi (l : Registry) (x : String) : Option ApiConfig :=
  (l.find? (fun kv => kv.1 == x)).map (fun kv => kv.2)

/-- In-place mutation of the dict bound at key `e`
(`store.apis[e]["field"] = ...` patterns): replace the binding. -/
def setApi (l : Registry) (e : String) (c : ApiConfig) : Registry :=
  l.map (fun kv => if kv.1 = e then (e, c) else kv)

/-- `self.default_price_multiplier = 10000` (`server.py` line 86). -/
def defaultPriceMultiplier : ℚ := 10000

/-- Effect of one iteration of the `sync_prices` loop body on a single
route config (`server.py` 348-367): routes whose `token_address` is
falsy are skipped; on a fetch failure (`price_data` is `None`) the
config is left untouched; on success `price_data`, `token_price_usd`
and `api_price_usd` are replaced outright with the fetched values.
The `update_x402_route` push this triggers is modelled by
`pushedPrice` below. -/
def syncRoute (fetch : String → Option PriceData) (cfg : ApiConfig) : ApiConfig :=
  match tokenOf cfg with
  | none => cfg
  | some addr =>
    match fetch addr with
    | none => cfg
    | some pd =>
      let mult := cfg.price_multiplier.getD defaultPriceMultiplier
      { cfg with price_data := some pd,
                 token_price_usd := some pd.token_price_usd,
                 api_price_usd := some (pd.token_price_usd * mult) }

/-- One full sync tick: the `for endpoint, api_config in
self.apis.items()` loop of `sync_prices`, visiting every route. -/
def syncTick (fetch : String → Option PriceData) (apis : Registry) : Registry :=
  apis.map (fun kv => (kv.1, syncRoute fetch kv.2))

/-- Rounding to the nearest integer with ties to even, the rule the
`.6f` fixed-point rendering of a float follows.  Floats are idealised
as exact rationals throughout this development, so the rendering is
idealised as exact rounding of the rational to six decimal places. -/
def roundHalfEven (x : ℚ) : ℤ :=
  let f := ⌊x⌋
  let frac := x - (f : ℚ)
  if frac < 1 / 2 then f
  else if 1 / 2 < frac then f + 1
  else if f % 2 = 0 then f else f + 1

/-- Decimal digits of `n` (fuel-driven, most significant first). -/
def natDigitsAux : Nat → Nat → List Char
  | 0, _ => []
  | fuel + 1, n =>
    if n = 0 then []
    else natDigitsAux fuel (n / 10) ++ [Char.ofNat (48 + n % 10)]

/-- Decimal rendering of a natural number. -/
def natStr (n : Nat) : String :=
  if n = 0 then "0" else String.mk (natDigitsAux (n + 1) n)

/-- Zero-padded six-digit rendering of a fraction part below `10^6`. -/
def pad6 (n : Nat) : String :=
  let s := natStr n
  String.mk (List.replicate (6 - s.length) '0') ++ s

/-- Fixed-point `.6f` rendering of an amount of `n` micro-units. -/
def microToStr (n : ℤ) : String :=
  (if n < 0 then "-" else "") ++
    natStr (n.natAbs / 1000000) ++ "." ++ pad6 (n.natAbs % 1000000)

/-- The fallback-adjusted numeric price `update_x402_route` computes
(`server.py` 383-392): the stored `api_price_usd` if positive, else
`token_price_usd * multiplier` if the token price is positive, else
the `0.001` fallback. -/
def x402Price (cfg : ApiConfig) : ℚ :=
  let api := cfg.api_price_usd.getD 0
  let token := cfg.token_price_usd.getD 0
  let mult := cfg.price_multiplier.getD defaultPriceMultiplier
  if api ≤ 0 then (if token > 0 then token * mult else 1 / 1000) else api

/-- The amount, in integer micro-dollars, encoded by the formatted
price string: `none` when the route has no truthy `token_address`
(`update_x402_route` returns early, `server.py` 378-380). -/
def pushedMicro (cfg : ApiConfig) : Option ℤ :=
  match tokenOf cfg with
  | none => none
  | some _ => some (roundHalfEven (x402Price cfg * 1000000))

/-- The price string `update_x402_route` actually hands to
`payment_middleware.add` (`server.py` 395-401): the f-string rendering
of the adjusted price with six decimal places, dollar sign included. -/
def pushedPrice (cfg : ApiConfig) : Option String :=
  (pushedMicro cfg).map (fun n => "$" ++ microToStr n)

/-- Initial `(token_price_usd, api_price_usd)` assigned by
`load_preexisting_routes` (`server.py` 148-164): the fetched price when
the feed answers, else the `0.000001` default, times the multiplier. -/
def initialLoadPrices (pd : Option PriceData) (mult : ℚ) : ℚ × ℚ :=
  match pd with
  | some d => (d.token_price_usd, d.token_price_usd * mult)
  | none => (1 / 1000000, (1 / 1000000) * mult)

/-- The `collectionToken` object of a successful launch-status reply. -/
structure TokenInfo where
  address : Option String
  symbol : Option String
  tokenURI : Option String
  deriving DecidableEq

/-- A parsed reply of `check_launch_status` (the provisioning
collaborator); the oracle returns `none` when the request raised. -/
structure LaunchResp where
  success : Bool
  collectionToken : Option TokenInfo
  transactionHash : Option String
  deriving DecidableEq

/-- `FlaunchTokenStore.finalize_token_launch` (`server.py` 411-468)
with the two outbound calls abstracted: `checkStatus` for
`check_launch_status` and `fetch` for `get_token_price_data`.  Returns
the boolean result together with the registry after the in-place dict
mutations.  The `update_x402_route` and `save_api_to_json` side effects
on success touch no registry state. -/
def finalize_token_launch (checkStatus : String → Option LaunchResp)
    (fetch : String → Option PriceData) (apis : Registry) (e : String) :
    Bool × Registry :=
  match lookupApi apis e with
  | none => (false, apis)
  | some cfg =>
    if (tokenOf cfg).isSome then (true, apis)
    else
      match truthyStr cfg.job_id with
      | none => (false, apis)
      | some jid =>
        match checkStatus jid with
        | none => (false, apis)
        | some st =>
          if st.success then
            match truthyStr (st.collectionToken.getD ⟨none, none, none⟩).address with
            | none => (false, apis)
            | some addr =>
              let tinfo := st.collectionToken.getD ⟨none, none, none⟩
              let mult := cfg.price_multiplier.getD defaultPriceMultiplier
              let cfg1 : ApiConfig :=
                { cfg with token_address := some addr, symbol := tinfo.symbol,
                           token_uri := tinfo.tokenURI,
                           tx_hash := st.transactionHash,
                           price_multiplier := some mult }
              let cfg2 : ApiConfig :=
                match fetch addr with
                | some pd =>
                  { cfg1 with price_data := some pd,
                              token_price_usd := some pd.token_price_usd,
                              api_price_usd := some (pd.token_price_usd * mult) }
                | none =>
                  { cfg1 with token_price_usd := some (1 / 1000000),
                              api_price_usd := some ((1 / 1000000) * mult) }
              (true, setApi apis e cfg2)
          else (false, apis)

/-- Python `str.upper()` restricted to the ASCII range the route
methods use. -/
def pyUpper (s : String) : String := String.mk (s.data.map Char.toUpper)

/-- A response body relayed by the proxy: the JSON re-serialisation
when `response.json()` parses, else the raw text. -/
inductive RespBody where
  | jsonBody : JsonVal → RespBody
  | textBody : String → RespBody

/-- `proxy_to_target_api` (`server.py` 473-495) with the upstream call
abstracted as its `HttpResult`.  Methods other than GET/POST answer
`400` before any upstream call; a timeout maps to `504`, any other
request exception to `502`, and otherwise the upstream status is
relayed with the parsed-JSON body when parseable, else the raw text. -/
def proxy_to_target_api (method : String) (upstream : HttpResult) :
    Nat × RespBody :=
  if pyUpper method = "GET" ∨ pyUpper method = "POST" then
    match upstream with
    | .timeout =>
      (504, .jsonBody (.jobj [("error", .jstr "Target API timeout")]))
    | .connError msg =>
      (502, .jsonBody (.jobj [("error", .jstr ("Target API error: " ++ msg))]))
    | .response s (some j) _ => (s, .jsonBody j)
    | .response s none t => (s, .textBody t)
  else (400, .jsonBody (.jobj [("error", .jstr "Unsupported method")]))

/-- Observable outcome of the `dynamic_api` handler. -/
inductive GatewayResponse where
  | notFound : GatewayResponse
  | provisioning : Option String → GatewayResponse
  | forwarded : Nat × RespBody → GatewayResponse

/-- `dynamic_api` (`server.py` 537-574): prepend `/`, answer `404` for
an unregistered path, try a one-shot `finalize_token_launch` when the
route has no truthy `token_address` and answer `503` with the stored
`job_id` when it is still pending, otherwise forward to the target via
`proxy_to_target_api`.  The `time.sleep(5)` before the finalize attempt
carries no state and is elided. -/
def dynamic_api (checkStatus : String → Option LaunchResp)
    (fetch : String → Option PriceData) (upstream : HttpResult)
    (apis : Registry) (raw : String) : GatewayResponse × Registry :=
  let e := "/" ++ raw
  match lookupApi apis e with
  | none => (.notFound, apis)
  | some cfg =>
    match tokenOf cfg with
    | some _ => (.forwarded (proxy_to_target_api cfg.method upstream), apis)
    | none =>
      let r := finalize_token_launch checkStatus fetch apis e
      if r.1 then
        match lookupApi r.2 e with
        | some cfg1 =>
          (.forwarded (proxy_to_target_api cfg1.method upstream), r.2)
        | none => (.notFound, r.2)
      else
        (.provisioning ((lookupApi r.2 e).bind (fun c => c.job_id)), r.2)

/-- The request body of `POST /admin/create-api`; fields are optional
because the handler checks their presence itself. -/
structure CreateRequest where
  name : Option String
  endpoint : Option String
  target_url : Option String
  wallet_address : Option String
  method : Option String
  description : Option String
  price_multiplier : Option ℚ

/-- HTTP-level outcome of `create_api`. -/
inductive CreateOutcome where
  | missingFields : CreateOutcome
  | alreadyExists : CreateOutcome
  | invalidUrl : CreateOutcome
  | launchFailed : CreateOutcome
  | created : Bool → String → CreateOutcome
  deriving DecidableEq

/-- Result of `create_api`: the outcome, whether
`launch_token_on_flaunch` was invoked, and the registry afterwards. -/
structure CreateResult where
  outcome : CreateOutcome
  launched : Bool
  registry : Registry

/-- Python `s.startswith(pre)`. -/
def pyStartsWith (s pre : String) : Bool := pre.data.isPrefixOf s.data

/-- Endpoint normalisation used by `create_api`, `load_preexisting_routes`
and the path-prefixing in the handlers. -/
def normalizeEndpoint (e : String) : String :=
  if pyStartsWith e "/" then e else "/" ++ e

/-- The bounded 60 s deployment-polling loop of `create_api`
(`server.py` 658-667), as `n` finalize attempts: stops early with
`true` on the first successful finalize. -/
def pollFinalize (checkStatus : String → Option LaunchResp)
    (fetch : String → Option PriceData) :
    Nat → Registry → String → Bool × Registry
  | 0, apis, _ => (false, apis)
  | n + 1, apis, e =>
    let r := finalize_token_launch checkStatus fetch apis e
    if r.1 then (true, r.2) else pollFinalize checkStatus fetch n r.2 e

/-- The api-config dict `create_api` builds for a fresh endpoint
(`server.py` 624-648): fresh routes start with no `token_address` and
the launch job id recorded after the launch call succeeds. -/
def createdConfig (req : CreateRequest) (nm ep tu wa jobId : String) :
    ApiConfig :=
  { name := nm, endpoint := ep, target_url := tu,
    method := pyUpper (req.method.getD "GET"), wallet_address := wa,
    description := req.description.getD "",
    token_address := none, job_id := some jobId, symbol := none,
    token_uri := none, tx_hash := none,
    price_multiplier := some (req.price_multiplier.getD defaultPriceMultiplier),
    price_data := none, token_price_usd := none, api_price_usd := none }

/-- `create_api` (`server.py` 577-709).  `launch` abstracts
`launch_token_on_flaunch`: `some jobId` on success, `none` on failure.
Checks run in source order: required fields, duplicate endpoint,
absolute URL; only then is the launch attempted, the config inserted,
and deployment polled.  `save_api_to_json` touches no registry state. -/
def create_api (launch : Option String)
    (checkStatus : String → Option LaunchResp)
    (fetch : String → Option PriceData) (poll : Nat)
    (apis : Registry) (req : CreateRequest) : CreateResult :=
  match req.name, req.endpoint, req.target_url, req.wallet_address with
  | some nm, some ep0, some tu, some wa =>
    let ep := normalizeEndpoint ep0
    if (lookupApi apis ep).isSome then ⟨.alreadyExists, false, apis⟩
    else if ¬ (pyStartsWith tu "http://" ∨ pyStartsWith tu "https://") then
      ⟨.invalidUrl, false, apis⟩
    else
      match launch with
      | none => ⟨.launchFailed, true, apis⟩
      | some jobId =>
        let apis1 : Registry := apis ++ [(ep, createdConfig req nm ep tu wa jobId)]
        let r := pollFinalize checkStatus fetch poll apis1 ep
        ⟨.created r.1 jobId, true, r.2⟩
  | _, _, _, _ => ⟨.missingFields, false, apis⟩

/-- The parts of the `GET /admin/api-status` response body the claims
talk about: the `status` string, the pricing block (present exactly
when the token is deployed) and the pending `job_id`. -/
structure StatusView where
  endpoint : String
  status : String
  pricing : Option (ℚ × ℚ)
  job_id : Option String
  deriving DecidableEq

/-- `api_status` (`server.py` 712-771): `404` (`none`) for an unknown
endpoint, otherwise a finalize attempt followed by a read of the
(possibly mutated) config: a deployed route reports `"deployed"` with
its pricing block, a pending one `"launching"` with the job id and no
pricing. -/
def api_status (checkStatus : String → Option LaunchResp)
    (fetch : String → Option PriceData) (apis : Registry) (raw : String) :
    Option StatusView × Registry :=
  let e := "/" ++ raw
  match lookupApi apis e with
  | none => (none, apis)
  | some _ =>
    let r := finalize_token_launch checkStatus fetch apis e
    match lookupApi r.2 e with
    | none => (none, r.2)
    | some cfg =>
      match tokenOf cfg with
      | some _ =>
        (some { endpoint := e, status := "deployed",
                pricing := some (cfg.token_price_usd.getD 0, cfg.api_price_usd.getD 0),
                job_id := none }, r.2)
      | none =>
        (some { endpoint := e, status := "launching", pricing := none,
                job_id := cfg.job_id }, r.2)

/-- One registry-touching operation of the server: a sync tick, an
explicit finalize, a gateway request, an admin create or an admin
status call, each with its oracles. -/
inductive Op where
  | syncTickOp : (String → Option PriceData) → Op
  | finalizeOp : (String → Option LaunchResp) → (String → Option PriceData) →
      String → Op
  | gatewayOp : (String → Option LaunchResp) → (String → Option PriceData) →
      HttpResult → String → Op
  | createOp : Option String → (String → Option LaunchResp) →
      (String → Option PriceData) → Nat → CreateRequest → Op
  | statusOp : (String → Option LaunchResp) → (String → Option PriceData) →
      String → Op

/-- Registry effect of one operation. -/
def applyOp : Op → Registry → Registry
  | .syncTickOp f, apis => syncTick f apis
  | .finalizeOp cs f e, apis => (finalize_token_launch cs f apis e).2
  | .gatewayOp cs f up raw, apis => (dynamic_api cs f up apis raw).2
  | .createOp l cs f poll req, apis => (create_api l cs f poll apis req).registry
  | .statusOp cs f raw, apis => (api_status cs f apis raw).2

/-- Registry effect of a sequence of operations. -/
def applyOps (ops : List Op) (apis : Registry) : Registry :=
  ops.foldl (fun s op => applyOp op s) apis

/-- `token_address` of the route registered at `x`, filtered through
Python truthiness: `some` exactly when the route is DEPLOYED. -/
def tokenAt (l : Registry) (x : String) : Option String :=
  (lookupApi l x).bind tokenOf

def c1FetchW : String → Option PriceData :=
  fun a => if a = "0xtok" then some ⟨2, 500, 700⟩ else none

def c1CfgW : ApiConfig :=
  { name := "Weather", endpoint := "/weather",
    target_url := "https://api.example.com/weather", method := "GET",
    wallet_address := "addr1", description := "",
    token_address := some "0xtok", job_id := some "job-1",
    symbol := some "WEAAPI", token_uri := none, tx_hash := none,
    price_multiplier := some 3, price_data := none,
    token_price_usd := some 1, api_price_usd := some 3 }

def c1RegW : Registry := [("/weather", c1CfgW)]

def c4FetchW : String → Option PriceData :=
  fun a => if a = "0xbbb" then some ⟨4, 100, 200⟩ else none

def c4CfgA : ApiConfig :=
  { name := "Alpha", endpoint := "/alpha",
    target_url := "https://api.example.com/alpha", method := "GET",
    wallet_address := "addrA", description := "",
    token_address := some "0xaaa", job_id := none, symbol := some "ALPAPI",
    token_uri := none, tx_hash := none, price_multiplier := some 2,
    price_data := none, token_price_usd := some 7, api_price_usd := some 14 }

def c4CfgB : ApiConfig :=
  { name := "Beta", endpoint := "/beta",
    target_url := "https://api.example.com/beta", method := "GET",
    wallet_address := "addrB", description := "",
    token_address := some "0xbbb", job_id := none, symbol := some "BETAPI",
    token_uri := none, tx_hash := none, price_multiplier := some 5,
    price_data := none, token_price_usd := some 1, api_price_usd := some 5 }

def c4RegW : Registry := [("/alpha", c4CfgA), ("/beta", c4CfgB)]

def noLaunchW : String → Option LaunchResp := fun _ => none

def noFetchW : String → Option PriceData := fun _ => none

def c5CfgW : ApiConfig :=
  { name := "Pending", endpoint := "/pending",
    target_url := "https://api.example.com/pending", method := "GET",
    wallet_address := "addrP", description := "",
    token_address := none, job_id := some "job-77", symbol := none,
    token_uri := none, tx_hash := none, price_multiplier := some 10000,
    price_data := none, token_price_usd := none, api_price_usd := none }

def c5RegW : Registry := [("/pending", c5CfgW)]

def c2ReqW : CreateRequest :=
  { name := some "Weather", endpoint := some "/weather",
    target_url := some "https://api.example.com/weather",
    wallet_address := some "addr1", method := some "GET",
    description := none, price_multiplier := none }

def c9OpsW : List Op :=
  [.syncTickOp c1FetchW,
   .finalizeOp noLaunchW noFetchW "/weather",
   .gatewayOp noLaunchW noFetchW .timeout "weather",
   .statusOp noLaunchW noFetchW "weather",
   .createOp (some "job-20") noLaunchW noFetchW 1 c2ReqW,
   .syncTickOp noFetchW]

/-- A reachable config whose pushed price string is `$0.000000`: the
route was created with a user-supplied `price_multiplier` of `0.1`
and finalized while the price feed was unreachable, so
`finalize_token_launch` (`server.py` 452-453) stored the defaults
`token_price_usd = 0.000001` and
`api_price_usd = 0.000001 * 0.1 = 0.0000001`.  That value is strictly
positive, but the `.6f` rendering at `server.py` 395 rounds it to
`$0.000000`. -/
def c10TinyCfg : ApiConfig :=
  { name := "Tiny", endpoint := "/tiny",
    target_url := "https://api.example.com/tiny", method := "GET",
    wallet_address := "addrT", description := "",
    token_address := some "0xttt", job_id := some "job-t",
    symbol := some "TINAPI", token_uri := none, tx_hash := none,
    price_multiplier := some (1 / 10), price_data := none,
    token_price_usd := some (1 / 1000000),
    api_price_usd := some (1 / 10000000) }

def c10ZeroCfg : ApiConfig :=
  { name := "Fresh", endpoint := "/fresh",
    target_url := "https://api.example.com/fresh", method := "GET",
    wallet_address := "addrF", description := "",
    token_address := some "0xfff", job_id := some "job-f",
    symbol := some "FREAPI", token_uri := none, tx_hash := none,
    price_multiplier := some 2, price_data := none,
    token_price_usd := some 0, api_price_usd := some 0 }

theorem lookupApi_nil (x : String) : lookupApi [] x = none := rfl

theorem lookupApi_cons (k : String) (v : ApiConfig) (l : Registry) (x : String) :
    lookupApi ((k, v) :: l) x = if k = x then some v else lookupApi l x := by
  by_cases h : k = x
  · subst h
    simp [lookupApi, List.find?_cons]
  · simp [lookupApi, List.find?_cons, h]

theorem lookupApi_append_left {l₁ : Registry} {x : String} {c : ApiConfig}
    (h : lookupApi l₁ x = some c) (l₂ : Registry) :
    lookupApi (l₁ ++ l₂) x = some c := by
  induction l₁ with
  | nil => simp [lookupApi_nil] at h
  | cons kv l ih =>
    rw [List.cons_append]
    rw [lookupApi_cons kv.1 kv.2] at h ⊢
    by_cases hk : kv.1 = x
    · simpa [hk] using h
    · simp only [hk, if_false] at h ⊢
      exact ih h

theorem lookupApi_append_right {l₁ : Registry} {x : String}
    (h : lookupApi l₁ x = none) (l₂ : Registry) :
    lookupApi (l₁ ++ l₂) x = lookupApi l₂ x := by
  induction l₁ with
  | nil => simp
  | cons kv l ih =>
    rw [List.cons_append]
    rw [lookupApi_cons kv.1 kv.2] at h ⊢
    by_cases hk : kv.1 = x
    · simp [hk] at h
    · simp only [hk, if_false] at h ⊢
      exact ih h

theorem lookupApi_setApi_ne {e x : String} (hne : e ≠ x)
    (l : Registry) (c : ApiConfig) :
    lookupApi (setApi l e c) x = lookupApi l x := by
  induction l with
  | nil => rfl
  | cons kv l ih =>
    simp only [setApi, List.map_cons]
    by_cases hk : kv.1 = e
    · rw [if_pos hk, lookupApi_cons, lookupApi_cons, if_neg hne, if_neg]
      · exact ih
      · rw [hk]; exact hne
    · rw [if_neg hk]
      rw [lookupApi_cons, lookupApi_cons]
      by_cases hx : kv.1 = x
      · simp [hx]
      · simp only [hx, if_false]
        exact ih

theorem isSome_lookupApi_setApi (l : Registry) (e x : String) (c : ApiConfig) :
    (lookupApi (setApi l e c) x).isSome = (lookupApi l x).isSome := by
  induction l with
  | nil => rfl
  | cons kv l ih =>
    simp only [setApi, List.map_cons]
    by_cases hk : kv.1 = e
    · rw [if_pos hk, lookupApi_cons, lookupApi_cons]
      by_cases hx : e = x
      · simp [hx, hk ▸ hx]
      · rw [if_neg hx, if_neg (hk ▸ hx)]
        exact ih
    · rw [if_neg hk, lookupApi_cons, lookupApi_cons]
      by_cases hx : kv.1 = x
      · simp [hx]
      · simp only [hx, if_false]
        exact ih

theorem token_address_syncRoute (f : String → Option PriceData)
    (cfg : ApiConfig) : (syncRoute f cfg).token_address = cfg.token_address := by
  unfold syncRoute
  cases h : tokenOf cfg with
  | none => rfl
  | some addr =>
    cases hf : f addr with
    | none => simp [hf]
    | some pd => simp [hf]

theorem tokenOf_syncRoute (f : String → Option PriceData) (cfg : ApiConfig) :
    tokenOf (syncRoute f cfg) = tokenOf cfg := by
  unfold tokenOf
  rw [token_address_syncRoute]

theorem lookupApi_syncTick (f : String → Option PriceData)
    (l : Registry) (x : String) :
    lookupApi (syncTick f l) x = (lookupApi l x).map (syncRoute f) := by
  induction l with
  | nil => rfl
  | cons kv l ih =>
    simp only [syncTick, List.map_cons]
    rw [lookupApi_cons, lookupApi_cons]
    by_cases hx : kv.1 = x
    · simp [hx]
    · simp only [hx, if_false]
      simpa [syncTick] using ih

/-- Shape of a `finalize_token_launch` result: either the registry is
returned untouched, or the looked-up route was not yet deployed and
exactly its binding is replaced with a `true` result. -/
theorem finalize_spec (cs : String → Option LaunchResp)
    (f : String → Option PriceData) (l : Registry) (e : String) :
    (∃ b, finalize_token_launch cs f l e = (b, l)) ∨
    (∃ cfg, lookupApi l e = some cfg ∧ tokenOf cfg = none ∧
      ∃ c2, finalize_token_launch cs f l e = (true, setApi l e c2)) := by
  cases hl : lookupApi l e with
  | none => exact .inl ⟨false, by simp [finalize_token_launch, hl]⟩
  | some cfg =>
    by_cases ht : (tokenOf cfg).isSome
    · exact .inl ⟨true, by simp [finalize_token_launch, hl, ht]⟩
    · have htok : tokenOf cfg = none := by
        cases htt : tokenOf cfg
        · rfl
        · rw [htt] at ht; simp at ht
      cases hj : truthyStr cfg.job_id with
      | none =>
        exact .inl ⟨false, by simp [finalize_token_launch, hl, ht, hj]⟩
      | some jid =>
        cases hcs : cs jid with
        | none =>
          exact .inl ⟨false, by simp [finalize_token_launch, hl, ht, hj, hcs]⟩
        | some st =>
          by_cases hs : st.success
          · cases ha : truthyStr (st.collectionToken.getD ⟨none, none, none⟩).address with
            | none =>
              exact .inl ⟨false,
                by simp [finalize_token_launch, hl, ht, hj, hcs, hs, ha]⟩
            | some addr =>
              refine .inr ⟨cfg, hl ▸ rfl, htok, ?_⟩
              simp only [finalize_token_launch, hl, ht, hj, hcs, hs, ha]
              simp
          · exact .inl ⟨false, by simp [finalize_token_launch, hl, ht, hj, hcs, hs]⟩

/-- A failed finalize attempt leaves the registry untouched. -/
theorem finalize_false_eq (cs : String → Option LaunchResp)
    (f : String → Option PriceData) (l : Registry) (e : String)
    (h : (finalize_token_launch cs f l e).1 = false) :
    finalize_token_launch cs f l e = (false, l) := by
  rcases finalize_spec cs f l e with ⟨b, hb⟩ | ⟨cfg, _, _, c2, hset⟩
  · rw [hb] at h ⊢
    simp at h
    rw [h]
  · rw [hset] at h
    simp at h

/-- `finalize_token_launch` on an already-deployed route returns `True`
and changes nothing (`server.py` 418-419). -/
theorem finalize_deployed (cs : String → Option LaunchResp)
    (f : String → Option PriceData) (l : Registry) (e : String)
    (cfg : ApiConfig) (hl : lookupApi l e = some cfg)
    (ht : (tokenOf cfg).isSome) :
    finalize_token_launch cs f l e = (true, l) := by
  simp [finalize_token_launch, hl, ht]

theorem tokenAt_finalize (cs : String → Option LaunchResp)
    (f : String → Option PriceData) (l : Registry) (e x a : String)
    (h : tokenAt l x = some a) :
    tokenAt (finalize_token_launch cs f l e).2 x = some a := by
  rcases finalize_spec cs f l e with ⟨b, hb⟩ | ⟨cfg, hl, htok, c2, hset⟩
  · rw [hb]
    exact h
  · rw [hset]
    by_cases hex : e = x
    · subst hex
      unfold tokenAt at h
      rw [hl] at h
      simp [htok] at h
    · unfold tokenAt at h ⊢
      rw [lookupApi_setApi_ne hex]
      exact h

theorem isSome_lookupApi_finalize (cs : String → Option LaunchResp)
    (f : String → Option PriceData) (l : Registry) (e x : String) :
    (lookupApi (finalize_token_launch cs f l e).2 x).isSome =
      (lookupApi l x).isSome := by
  rcases finalize_spec cs f l e with ⟨b, hb⟩ | ⟨cfg, _, _, c2, hset⟩
  · rw [hb]
  · rw [hset]
    exact isSome_lookupApi_setApi l e x c2

theorem tokenAt_pollFinalize (cs : String → Option LaunchResp)
    (f : String → Option PriceData) (n : Nat) (l : Registry) (e x a : String)
    (h : tokenAt l x = some a) :
    tokenAt (pollFinalize cs f n l e).2 x = some a := by
  induction n generalizing l with
  | zero => exact h
  | succ n ih =>
    simp only [pollFinalize]
    by_cases hr : (finalize_token_launch cs f l e).1
    · simp only [hr, if_true]
      exact tokenAt_finalize cs f l e x a h
    · simp only [hr, if_false]
      exact ih _ (tokenAt_finalize cs f l e x a h)

theorem isSome_lookupApi_pollFinalize (cs : String → Option LaunchResp)
    (f : String → Option PriceData) (n : Nat) (l : Registry) (e x : String) :
    (lookupApi (pollFinalize cs f n l e).2 x).isSome =
      (lookupApi l x).isSome := by
  induction n generalizing l with
  | zero => rfl
  | succ n ih =>
    simp only [pollFinalize]
    by_cases hr : (finalize_token_launch cs f l e).1 = true
    · rw [if_pos hr]
      exact isSome_lookupApi_finalize cs f l e x
    · rw [if_neg hr]
      rw [ih]
      exact isSome_lookupApi_finalize cs f l e x

theorem tokenAt_syncTick (f : String → Option PriceData) (l : Registry)
    (x a : String) (h : tokenAt l x = some a) :
    tokenAt (syncTick f l) x = some a := by
  unfold tokenAt at h ⊢
  rw [lookupApi_syncTick]
  cases hl : lookupApi l x with
  | none => rw [hl] at h; simp at h
  | some c =>
    rw [hl] at h
    simp at h ⊢
    rw [tokenOf_syncRoute]
    exact h

theorem tokenAt_eq_some_iff (l : Registry) (x a : String) :
    tokenAt l x = some a ↔
      ∃ c, lookupApi l x = some c ∧ tokenOf c = some a := by
  unfold tokenAt
  cases lookupApi l x <;> simp

theorem tokenAt_append_left {l : Registry} {x a : String}
    (h : tokenAt l x = some a) (l₂ : Registry) :
    tokenAt (l ++ l₂) x = some a := by
  obtain ⟨c, hc, hct⟩ := (tokenAt_eq_some_iff l x a).mp h
  exact (tokenAt_eq_some_iff _ x a).mpr ⟨c, lookupApi_append_left hc l₂, hct⟩

theorem tokenAt_create (la : Option String) (cs : String → Option LaunchResp)
    (f : String → Option PriceData) (poll : Nat) (l : Registry)
    (req : CreateRequest) (x a : String) (h : tokenAt l x = some a) :
    tokenAt (create_api la cs f poll l req).registry x = some a := by
  simp only [create_api]
  split
  · split
    · exact h
    · split
      · exact h
      · split
        · exact h
        · exact tokenAt_pollFinalize cs f poll _ _ x a (tokenAt_append_left h _)
  · exact h

/-- The gateway handler mutates the registry only through its finalize
attempt. -/
theorem dynamic_api_registry (cs : String → Option LaunchResp)
    (f : String → Option PriceData) (up : HttpResult) (l : Registry)
    (raw : String) :
    (dynamic_api cs f up l raw).2 = l ∨
    (dynamic_api cs f up l raw).2 =
      (finalize_token_launch cs f l ("/" ++ raw)).2 := by
  simp only [dynamic_api]
  split
  · exact .inl rfl
  · split
    · exact .inl rfl
    · split
      · split
        · exact .inr rfl
        · exact .inr rfl
      · exact .inr rfl

/-- The status handler mutates the registry only through its finalize
attempt. -/
theorem api_status_registry (cs : String → Option LaunchResp)
    (f : String → Option PriceData) (l : Registry) (raw : String) :
    (api_status cs f l raw).2 = l ∨
    (api_status cs f l raw).2 =
      (finalize_token_launch cs f l ("/" ++ raw)).2 := by
  simp only [api_status]
  split
  · exact .inl rfl
  · split
    · exact .inr rfl
    · split
      · exact .inr rfl
      · exact .inr rfl

/-- No single server operation un-deploys a deployed route. -/
theorem tokenAt_applyOp (op : Op) (l : Registry) (x a : String)
    (h : tokenAt l x = some a) : tokenAt (applyOp op l) x = some a := by
  cases op with
  | syncTickOp f => exact tokenAt_syncTick f l x a h
  | finalizeOp cs f e => exact tokenAt_finalize cs f l e x a h
  | gatewayOp cs f up raw =>
    rcases dynamic_api_registry cs f up l raw with hr | hr <;> rw [applyOp, hr]
    · exact h
    · exact tokenAt_finalize cs f l _ x a h
  | createOp la cs f poll req => exact tokenAt_create la cs f poll l req x a h
  | statusOp cs f raw =>
    rcases api_status_registry cs f l raw with hr | hr <;> rw [applyOp, hr]
    · exact h
    · exact tokenAt_finalize cs f l _ x a h

theorem tokenAt_applyOps (ops : List Op) (l : Registry) (x a : String)
    (h : tokenAt l x = some a) : tokenAt (applyOps ops l) x = some a := by
  induction ops generalizing l with
  | nil => exact h
  | cons op ops ih => exact ih _ (tokenAt_applyOp op l x a h)

/-- When the provisioning collaborator never reports success, a
finalize attempt on a still-pending route does nothing. -/
theorem finalize_pending_oracle (cs : String → Option LaunchResp)
    (f : String → Option PriceData) (l : Registry) (e : String)
    (c : ApiConfig) (hl : lookupApi l e = some c) (ht : tokenOf c = none)
    (hp : ∀ j st, cs j = some st → st.success = false) :
    finalize_token_launch cs f l e = (false, l) := by
  cases hj : truthyStr c.job_id with
  | none => simp [finalize_token_launch, hl, ht, hj]
  | some j =>
    cases hcs : cs j with
    | none => simp [finalize_token_launch, hl, ht, hj, hcs]
    | some st =>
      have hs := hp j st hcs
      simp [finalize_token_launch, hl, ht, hj, hcs, hs]

theorem pollFinalize_pending (cs : String → Option LaunchResp)
    (f : String → Option PriceData) (n : Nat) (l : Registry) (e : String)
    (c : ApiConfig) (hl : lookupApi l e = some c) (ht : tokenOf c = none)
    (hp : ∀ j st, cs j = some st → st.success = false) :
    pollFinalize cs f n l e = (false, l) := by
  induction n with
  | zero => rfl
  | succ n ih =>
    simp only [pollFinalize, finalize_pending_oracle cs f l e c hl ht hp]
    simpa using ih

/-- Reduction of `create_api` on a fresh endpoint with a successful
launch call. -/
theorem create_api_fresh (cs : String → Option LaunchResp)
    (f : String → Option PriceData) (jid : String) (poll : Nat)
    (apis : Registry) (req : CreateRequest) (nm ep0 tu wa : String)
    (hn : req.name = some nm) (hep : req.endpoint = some ep0)
    (htu : req.target_url = some tu) (hwa : req.wallet_address = some wa)
    (hfresh : lookupApi apis (normalizeEndpoint ep0) = none)
    (hurl : pyStartsWith tu "http://" ∨ pyStartsWith tu "https://") :
    create_api (some jid) cs f poll apis req =
      ⟨.created (pollFinalize cs f poll
          (apis ++ [(normalizeEndpoint ep0,
            createdConfig req nm (normalizeEndpoint ep0) tu wa jid)])
          (normalizeEndpoint ep0)).1 jid, true,
        (pollFinalize cs f poll
          (apis ++ [(normalizeEndpoint ep0,
            createdConfig req nm (normalizeEndpoint ep0) tu wa jid)])
          (normalizeEndpoint ep0)).2⟩ := by
  simp only [create_api, hn, hep, htu, hwa]
  rw [if_neg (by simp [hfresh]), if_neg (by simp [hurl])]

/-- C1: for a DEPLOYED route (one whose `token_address` is set), a sync
tick in which the price-feed fetch succeeds with `pd` stores exactly
the fetched data in the registry: `price_data` becomes `pd`,
`token_price_usd` becomes `pd.token_price_usd` and `api_price_usd`
becomes the fetched price times the multiplier, irrespective of any
previously stored price (full replacement, no merge). -/
theorem c1_sync_replaces_price (fetch : String → Option PriceData)
    (apis : Registry) (e addr : String) (cfg : ApiConfig) (pd : PriceData)
    (hl : lookupApi apis e = some cfg)
    (ht : cfg.token_address = some addr) (hne : addr ≠ "")
    (hf : fetch addr = some pd) :
    lookupApi (syncTick fetch apis) e = some (syncRoute fetch cfg) ∧
    (syncRoute fetch cfg).token_price_usd = some pd.token_price_usd ∧
    (syncRoute fetch cfg).price_data = some pd ∧
    (syncRoute fetch cfg).api_price_usd =
      some (pd.token_price_usd *
        cfg.price_multiplier.getD defaultPriceMultiplier) := by
  have htok : tokenOf cfg = some addr := by
    simp [tokenOf, truthyStr, ht, hne]
  refine ⟨?_, ?_, ?_, ?_⟩
  · rw [lookupApi_syncTick, hl]
    rfl
  · simp [syncRoute, htok, hf]
  · simp [syncRoute, htok, hf]
  · simp [syncRoute, htok, hf]

theorem c1_sync_replaces_price_witness :
    c1FetchW "0xtok" = some ⟨2, 500, 700⟩ ∧
    (lookupApi (syncTick c1FetchW c1RegW) "/weather" =
        some (syncRoute c1FetchW c1CfgW) ∧
      (syncRoute c1FetchW c1CfgW).token_price_usd =
        some (PriceData.mk 2 500 700).token_price_usd ∧
      (syncRoute c1FetchW c1CfgW).price_data = some ⟨2, 500, 700⟩ ∧
      (syncRoute c1FetchW c1CfgW).api_price_usd =
        some ((PriceData.mk 2 500 700).token_price_usd *
          c1CfgW.price_multiplier.getD defaultPriceMultiplier)) :=
  ⟨by decide,
    c1_sync_replaces_price c1FetchW c1RegW "/weather" "0xtok" c1CfgW
      ⟨2, 500, 700⟩ (by decide) (by decide) (by decide) (by decide)⟩

/-- C4: within one sync tick, a route whose fetch reports Unavailable
keeps its stored config byte-for-byte, while another route in the same
tick whose fetch succeeds still gets its price fields replaced, and the
tick visits every registered route (same endpoints, in order) — one
route's failure neither affects another route nor halts the loop. -/
theorem c4_per_route_isolation (fetch : String → Option PriceData)
    (apis : Registry) (eA eB aA aB : String) (cfgA cfgB : ApiConfig)
    (pd : PriceData)
    (hA : (eA, cfgA) ∈ apis) (htA : cfgA.token_address = some aA)
    (hneA : aA ≠ "") (hfA : fetch aA = none)
    (hB : (eB, cfgB) ∈ apis) (htB : cfgB.token_address = some aB)
    (hneB : aB ≠ "") (hfB : fetch aB = some pd) :
    (eA, cfgA) ∈ syncTick fetch apis ∧
    (eB, { cfgB with
            price_data := some pd,
            token_price_usd := some pd.token_price_usd,
            api_price_usd := some (pd.token_price_usd *
              cfgB.price_multiplier.getD defaultPriceMultiplier) }) ∈
      syncTick fetch apis ∧
    (syncTick fetch apis).map Prod.fst = apis.map Prod.fst := by
  have htokA : tokenOf cfgA = some aA := by simp [tokenOf, truthyStr, htA, hneA]
  have htokB : tokenOf cfgB = some aB := by simp [tokenOf, truthyStr, htB, hneB]
  refine ⟨?_, ?_, ?_⟩
  · have hs : syncRoute fetch cfgA = cfgA := by simp [syncRoute, htokA, hfA]
    have := List.mem_map_of_mem (fun kv => (kv.1, syncRoute fetch kv.2)) hA
    simpa [syncTick, hs] using this
  · have hs : syncRoute fetch cfgB =
        { cfgB with
            price_data := some pd,
            token_price_usd := some pd.token_price_usd,
            api_price_usd := some (pd.token_price_usd *
              cfgB.price_multiplier.getD defaultPriceMultiplier) } := by
      simp [syncRoute, htokB, hfB]
    have := List.mem_map_of_mem (fun kv => (kv.1, syncRoute fetch kv.2)) hB
    simpa [syncTick, hs] using this
  · simp [syncTick]

theorem c4_per_route_isolation_witness :
    c4FetchW "0xaaa" = none ∧ c4FetchW "0xbbb" = some ⟨4, 100, 200⟩ ∧
    ((("/alpha", c4CfgA) ∈ syncTick c4FetchW c4RegW) ∧
      (("/beta", { c4CfgB with
          price_data := some ⟨4, 100, 200⟩,
          token_price_usd := some (PriceData.mk 4 100 200).token_price_usd,
          api_price_usd := some ((PriceData.mk 4 100 200).token_price_usd *
            c4CfgB.price_multiplier.getD defaultPriceMultiplier) }) ∈
        syncTick c4FetchW c4RegW) ∧
      (syncTick c4FetchW c4RegW).map Prod.fst = c4RegW.map Prod.fst) :=
  ⟨by decide, by decide,
    c4_per_route_isolation c4FetchW c4RegW "/alpha" "/beta" "0xaaa" "0xbbb"
      c4CfgA c4CfgB ⟨4, 100, 200⟩ (by decide) (by decide) (by decide)
      (by decide) (by decide) (by decide) (by decide) (by decide)⟩

/-- C6: a Proxy Gateway request whose path is not registered answers
`404` with the registry untouched; in particular the result is not a
`forwarded` response, so the outbound call to any `target_url` is never
reached. -/
theorem c6_unknown_route_404 (cs : String → Option LaunchResp)
    (f : String → Option PriceData) (up : HttpResult) (apis : Registry)
    (raw : String) (h : lookupApi apis ("/" ++ raw) = none) :
    dynamic_api cs f up apis raw = (.notFound, apis) ∧
    ∀ resp, (dynamic_api cs f up apis raw).1 ≠ .forwarded resp := by
  have hd : dynamic_api cs f up apis raw = (.notFound, apis) := by
    simp [dynamic_api, h]
  exact ⟨hd, fun resp => by rw [hd]; simp⟩

theorem c6_unknown_route_404_witness :
    lookupApi ([] : Registry) ("/" ++ "nope") = none ∧
    (dynamic_api noLaunchW noFetchW .timeout ([] : Registry) "nope" =
        (.notFound, ([] : Registry)) ∧
      ∀ resp, (dynamic_api noLaunchW noFetchW .timeout ([] : Registry)
        "nope").1 ≠ .forwarded resp) :=
  ⟨rfl, c6_unknown_route_404 noLaunchW noFetchW .timeout [] "nope" rfl⟩

/-- C7: for a forwarded request (method GET or POST after upcasing): an
upstream timeout yields `504`, an upstream connection error yields
`502`, and any upstream response is relayed with its own status code
and body — the parsed JSON when the body parses, the raw text when
not. -/
theorem c7_proxy_relay (m : String)
    (hm : pyUpper m = "GET" ∨ pyUpper m = "POST") :
    proxy_to_target_api m .timeout =
      (504, .jsonBody (.jobj [("error", .jstr "Target API timeout")])) ∧
    (∀ msg, proxy_to_target_api m (.connError msg) =
      (502, .jsonBody (.jobj [("error",
        .jstr ("Target API error: " ++ msg))]))) ∧
    (∀ s j t, proxy_to_target_api m (.response s (some j) t) =
      (s, .jsonBody j)) ∧
    (∀ s t, proxy_to_target_api m (.response s none t) =
      (s, .textBody t)) := by
  refine ⟨?_, fun msg => ?_, fun s j t => ?_, fun s t => ?_⟩ <;>
    · unfold proxy_to_target_api
      rw [if_pos hm]

theorem c7_proxy_relay_witness :
    (pyUpper "GET" = "GET" ∨ pyUpper "GET" = "POST") ∧
    proxy_to_target_api "GET" .timeout =
      (504, .jsonBody (.jobj [("error", .jstr "Target API timeout")])) :=
  ⟨by decide, (c7_proxy_relay "GET" (by decide)).1⟩

/-- C5: a gateway request to a registered route that has no
`token_address` and whose one-shot finalize attempt fails answers `503`
carrying the stored launch `job_id`, leaves the registry unchanged, and
is never forwarded to the target URL. -/
theorem c5_pending_route_503 (cs : String → Option LaunchResp)
    (f : String → Option PriceData) (up : HttpResult) (apis : Registry)
    (raw : String) (cfg : ApiConfig)
    (hl : lookupApi apis ("/" ++ raw) = some cfg)
    (ht : cfg.token_address = none)
    (hfin : (finalize_token_launch cs f apis ("/" ++ raw)).1 = false) :
    dynamic_api cs f up apis raw = (.provisioning cfg.job_id, apis) ∧
    ∀ resp, (dynamic_api cs f up apis raw).1 ≠ .forwarded resp := by
  have hfe := finalize_false_eq cs f apis ("/" ++ raw) hfin
  have htok : tokenOf cfg = none := by simp [tokenOf, truthyStr, ht]
  have hd : dynamic_api cs f up apis raw = (.provisioning cfg.job_id, apis) := by
    simp [dynamic_api, hl, htok, hfe]
  exact ⟨hd, fun resp => by rw [hd]; simp⟩

theorem c5_pending_route_503_witness :
    lookupApi c5RegW ("/" ++ "pending") = some c5CfgW ∧
    c5CfgW.token_address = none ∧
    (finalize_token_launch noLaunchW noFetchW c5RegW ("/" ++ "pending")).1
      = false ∧
    (dynamic_api noLaunchW noFetchW .timeout c5RegW "pending" =
        (.provisioning c5CfgW.job_id, c5RegW) ∧
      ∀ resp, (dynamic_api noLaunchW noFetchW .timeout c5RegW
        "pending").1 ≠ .forwarded resp) :=
  ⟨by decide, by decide, by decide,
    c5_pending_route_503 noLaunchW noFetchW .timeout c5RegW "pending"
      c5CfgW (by decide) (by decide) (by decide)⟩

/-- C3: the price-feed fetch never raises to its caller (it is a total
function into `Option`): a 200 body that is a JSON object with a
missing `price` field parses to a snapshot whose price defaulted to 0
(and the empty object parses to the all-zero snapshot); a timeout, a
connection error and any non-200 response all map to Unavailable
(`none`). -/
theorem c3_feed_error_tolerance :
    (∀ (fields : List (String × JsonVal)) (t : String),
      jfield fields "price" = none →
      ∀ pd, get_token_price_data (.response 200 (some (.jobj fields)) t) =
          some pd →
        pd.token_price_usd = 0) ∧
    get_token_price_data (.response 200 (some (.jobj [])) "") =
      some ⟨0, 0, 0⟩ ∧
    get_token_price_data .timeout = none ∧
    (∀ msg, get_token_price_data (.connError msg) = none) ∧
    (∀ (s : Nat) (b : Option JsonVal) (t : String), s ≠ 200 →
      get_token_price_data (.response s b t) = none) := by
  refine ⟨?_, by decide, rfl, fun msg => rfl, fun s b t hs => ?_⟩
  · intro fields t hf pd hpd
    have hp0 : (jfield fields "price").getD (.jobj []) = JsonVal.jobj [] := by
      rw [hf]
      rfl
    have hq : pyFloat ((jfield ([] : List (String × JsonVal))
        "priceUSDC").getD (.jnum 0)) = some 0 := rfl
    cases hv : (jfield fields "volume").getD (.jobj []) with
    | jobj vf =>
      cases h24 : pyFloat ((jfield vf "volumeUSDC24h").getD (.jnum 0)) with
      | none =>
        simp [get_token_price_data, parsePriceBody, hp0, hq, hv, h24] at hpd
      | some v24 =>
        cases h7 : pyFloat ((jfield vf "volumeUSDC7d").getD (.jnum 0)) with
        | none =>
          simp [get_token_price_data, parsePriceBody, hp0, hq, hv, h24, h7]
            at hpd
        | some v7 =>
          simp [get_token_price_data, parsePriceBody, hp0, hq, hv, h24, h7]
            at hpd
          rw [← hpd]
    | jnull =>
      simp [get_token_price_data, parsePriceBody, hp0, hq, hv] at hpd
    | jbool b =>
      simp [get_token_price_data, parsePriceBody, hp0, hq, hv] at hpd
    | jnum q =>
      simp [get_token_price_data, parsePriceBody, hp0, hq, hv] at hpd
    | jstr s =>
      simp [get_token_price_data, parsePriceBody, hp0, hq, hv] at hpd
    | jarr xs =>
      simp [get_token_price_data, parsePriceBody, hp0, hq, hv] at hpd
  · simp [get_token_price_data, hs]

theorem c3_feed_error_tolerance_witness :
    jfield [("volume", JsonVal.jobj [("volumeUSDC24h", .jnum 500)])]
      "price" = none ∧
    (get_token_price_data (.response 200
      (some (.jobj [("volume",
        JsonVal.jobj [("volumeUSDC24h", .jnum 500)])])) "")).isSome ∧
    ((404 : Nat) ≠ 200) ∧
    ((get_token_price_data (.response 200
        (some (.jobj [("volume",
          JsonVal.jobj [("volumeUSDC24h", .jnum 500)])])) "")).getD
        ⟨1, 1, 1⟩).token_price_usd = 0 ∧
    get_token_price_data (.response 404 none "oops") = none :=
  ⟨rfl, by decide, by decide,
    c3_feed_error_tolerance.1
      [("volume", JsonVal.jobj [("volumeUSDC24h", .jnum 500)])] "" rfl
      ⟨0, 500, 0⟩ (by decide),
    c3_feed_error_tolerance.2.2.2.2 404 none "oops" (by decide)⟩

/-- C2: creating a fresh path (launch call succeeds, provisioning job
still pending at every poll) registers the route in PENDING state, and
an immediate status query reports `launching` with no pricing block
(`current_price` null) and the pending job id. -/
theorem c2_create_then_status_pending
    (cs : String → Option LaunchResp) (f : String → Option PriceData)
    (jid : String) (poll : Nat) (apis : Registry) (req : CreateRequest)
    (nm ep0 tu wa raw : String)
    (hn : req.name = some nm) (hep : req.endpoint = some ep0)
    (htu : req.target_url = some tu) (hwa : req.wallet_address = some wa)
    (hfresh : lookupApi apis (normalizeEndpoint ep0) = none)
    (hurl : pyStartsWith tu "http://" ∨ pyStartsWith tu "https://")
    (hpending : ∀ j st, cs j = some st → st.success = false)
    (hraw : "/" ++ raw = normalizeEndpoint ep0) :
    create_api (some jid) cs f poll apis req =
      ⟨.created false jid, true,
        apis ++ [(normalizeEndpoint ep0,
          createdConfig req nm (normalizeEndpoint ep0) tu wa jid)]⟩ ∧
    api_status cs f
        (apis ++ [(normalizeEndpoint ep0,
          createdConfig req nm (normalizeEndpoint ep0) tu wa jid)]) raw =
      (some ⟨normalizeEndpoint ep0, "launching", none, some jid⟩,
        apis ++ [(normalizeEndpoint ep0,
          createdConfig req nm (normalizeEndpoint ep0) tu wa jid)]) := by
  have hl1 : lookupApi
      (apis ++ [(normalizeEndpoint ep0,
        createdConfig req nm (normalizeEndpoint ep0) tu wa jid)])
      (normalizeEndpoint ep0) =
      some (createdConfig req nm (normalizeEndpoint ep0) tu wa jid) := by
    rw [lookupApi_append_right hfresh, lookupApi_cons]
    simp
  have htok1 : tokenOf (createdConfig req nm (normalizeEndpoint ep0) tu wa jid)
      = none := rfl
  have hpoll := pollFinalize_pending cs f poll _ (normalizeEndpoint ep0) _
    hl1 htok1 hpending
  have hfe := finalize_pending_oracle cs f _ (normalizeEndpoint ep0) _
    hl1 htok1 hpending
  constructor
  · rw [create_api_fresh cs f jid poll apis req nm ep0 tu wa hn hep htu hwa
      hfresh hurl]
    simp [hpoll]
  · simp only [api_status, hraw, hl1, hfe, htok1]
    rfl

/-- The all-failing provisioning oracle never reports success. -/
theorem noLaunchW_pending :
    ∀ j st, noLaunchW j = some st → st.success = false := by
  intro j st h
  simp [noLaunchW] at h

theorem c2_create_then_status_pending_witness :
    c2ReqW.name = some "Weather" ∧
    lookupApi ([] : Registry) (normalizeEndpoint "/weather") = none ∧
    (pyStartsWith "https://api.example.com/weather" "http://" ∨
      pyStartsWith "https://api.example.com/weather" "https://") ∧
    (∀ j st, noLaunchW j = some st → st.success = false) ∧
    (create_api (some "job-9") noLaunchW noFetchW 3 [] c2ReqW =
        ⟨.created false "job-9", true,
          [] ++ [(normalizeEndpoint "/weather",
            createdConfig c2ReqW "Weather" (normalizeEndpoint "/weather")
              "https://api.example.com/weather" "addr1" "job-9")]⟩ ∧
      api_status noLaunchW noFetchW
          ([] ++ [(normalizeEndpoint "/weather",
            createdConfig c2ReqW "Weather" (normalizeEndpoint "/weather")
              "https://api.example.com/weather" "addr1" "job-9")]) "weather" =
        (some ⟨normalizeEndpoint "/weather", "launching", none, some "job-9"⟩,
          [] ++ [(normalizeEndpoint "/weather",
            createdConfig c2ReqW "Weather" (normalizeEndpoint "/weather")
              "https://api.example.com/weather" "addr1" "job-9")])) :=
  ⟨rfl, rfl, by decide, noLaunchW_pending,
    c2_create_then_status_pending noLaunchW noFetchW "job-9" 3 [] c2ReqW
      "Weather" "/weather" "https://api.example.com/weather" "addr1"
      "weather" rfl rfl rfl rfl rfl (by decide)
      noLaunchW_pending (by decide)⟩

/-- C8: a second `create` call on an already-registered path answers
AlreadyExists, performs no launch call, and returns the registry
byte-for-byte unchanged — the first registration is not modified and no
provisioning is started for it. -/
theorem c8_create_idempotent (cs : String → Option LaunchResp)
    (f : String → Option PriceData) (jid : String) (launch2 : Option String)
    (poll poll2 : Nat) (apis : Registry) (req : CreateRequest)
    (nm ep0 tu wa : String)
    (hn : req.name = some nm) (hep : req.endpoint = some ep0)
    (htu : req.target_url = some tu) (hwa : req.wallet_address = some wa)
    (hfresh : lookupApi apis (normalizeEndpoint ep0) = none)
    (hurl : pyStartsWith tu "http://" ∨ pyStartsWith tu "https://") :
    create_api launch2 cs f poll2
        (create_api (some jid) cs f poll apis req).registry req =
      ⟨.alreadyExists, false,
        (create_api (some jid) cs f poll apis req).registry⟩ := by
  have h1 := create_api_fresh cs f jid poll apis req nm ep0 tu wa hn hep htu
    hwa hfresh hurl
  have hsome : (lookupApi (create_api (some jid) cs f poll apis req).registry
      (normalizeEndpoint ep0)).isSome = true := by
    simp only [h1]
    rw [isSome_lookupApi_pollFinalize, lookupApi_append_right hfresh,
      lookupApi_cons]
    simp
  set R1 := (create_api (some jid) cs f poll apis req).registry with hR1
  simp only [create_api, hn, hep, htu, hwa]
  rw [if_pos hsome]

theorem c8_create_idempotent_witness :
    c2ReqW.endpoint = some "/weather" ∧
    lookupApi ([] : Registry) (normalizeEndpoint "/weather") = none ∧
    create_api (some "job-10") noLaunchW noFetchW 2
        (create_api (some "job-9") noLaunchW noFetchW 3 [] c2ReqW).registry
        c2ReqW =
      ⟨.alreadyExists, false,
        (create_api (some "job-9") noLaunchW noFetchW 3 [] c2ReqW).registry⟩ :=
  ⟨rfl, rfl,
    c8_create_idempotent noLaunchW noFetchW "job-9" (some "job-10") 3 2 []
      c2ReqW "Weather" "/weather" "https://api.example.com/weather" "addr1"
      rfl rfl rfl rfl rfl (by decide)⟩

/-- C9: a deployed route stays deployed.  Once a route's
`token_address` is a non-empty string, no sequence of server operations
(sync ticks, finalize attempts, gateway requests, admin create or
status calls) ever clears or changes it, and a finalize call on an
already-deployed route returns `True` leaving the registry untouched. -/
theorem c9_deployed_permanent :
    (∀ (ops : List Op) (apis : Registry) (e a : String),
      tokenAt apis e = some a →
      tokenAt (applyOps ops apis) e = some a) ∧
    (∀ (cs : String → Option LaunchResp) (f : String → Option PriceData)
      (apis : Registry) (e a : String) (cfg : ApiConfig),
      lookupApi apis e = some cfg → cfg.token_address = some a → a ≠ "" →
      finalize_token_launch cs f apis e = (true, apis)) :=
  ⟨fun ops apis e a h => tokenAt_applyOps ops apis e a h,
    fun cs f apis e a cfg hl ht hne =>
      finalize_deployed cs f apis e cfg hl
        (by simp [tokenOf, truthyStr, ht, hne])⟩

theorem c9_deployed_permanent_witness :
    tokenAt c1RegW "/weather" = some "0xtok" ∧
    tokenAt (applyOps c9OpsW c1RegW) "/weather" = some "0xtok" ∧
    (lookupApi c1RegW "/weather" = some c1CfgW ∧
      c1CfgW.token_address = some "0xtok" ∧ "0xtok" ≠ "" ∧
      finalize_token_launch noLaunchW noFetchW c1RegW "/weather" =
        (true, c1RegW)) :=
  ⟨by decide,
    c9_deployed_permanent.1 c9OpsW c1RegW "/weather" "0xtok" (by decide),
    by decide, by decide, by decide,
    c9_deployed_permanent.2 noLaunchW noFetchW c1RegW "/weather" "0xtok"
      c1CfgW (by decide) (by decide) (by decide)⟩

theorem roundHalfEven_intCast (n : ℤ) : roundHalfEven (n : ℚ) = n := by
  simp [roundHalfEven, Int.floor_intCast]

/-- An amount strictly above half a micro-unit rounds to at least one
micro-unit. -/
theorem roundHalfEven_pos {x : ℚ} (hx : 1 / 2 < x) : 1 ≤ roundHalfEven x := by
  have hfl : (⌊x⌋ : ℚ) ≤ x := Int.floor_le x
  have hfu : x < (⌊x⌋ : ℚ) + 1 := Int.lt_floor_add_one x
  have hnn : 0 ≤ ⌊x⌋ := Int.floor_nonneg.mpr (by linarith)
  simp only [roundHalfEven]
  by_cases h1 : x - (⌊x⌋ : ℚ) < 1 / 2
  · rw [if_pos h1]
    have h0 : (0 : ℚ) < (⌊x⌋ : ℚ) := by linarith
    have h0i : 0 < ⌊x⌋ := by exact_mod_cast h0
    omega
  · rw [if_neg h1]
    by_cases h2 : 1 / 2 < x - (⌊x⌋ : ℚ)
    · rw [if_pos h2]
      omega
    · rw [if_neg h2]
      have he : x - (⌊x⌋ : ℚ) = 1 / 2 :=
        le_antisymm (not_lt.mp h2) (not_lt.mp h1)
      have h0 : (0 : ℚ) < (⌊x⌋ : ℚ) := by linarith
      have h0i : 0 < ⌊x⌋ := by exact_mod_cast h0
      by_cases h3 : ⌊x⌋ % 2 = 0
      · rw [if_pos h3]
        omega
      · rw [if_neg h3]
        omega

/-- C10 counterexample: the price the system pushes to the payment
gate is not always strictly positive.  For `c10TinyCfg` — a route with
a strictly positive multiplier and a strictly positive stored price —
the six-decimal rendering handed to the middleware is literally
`$0.000000`, an advertised amount of zero micro-dollars. -/
theorem c10_pushed_price_not_always_positive :
    pushedPrice c10TinyCfg = some "$0.000000" ∧
    (0 : ℚ) < c10TinyCfg.price_multiplier.getD defaultPriceMultiplier ∧
    (0 : ℚ) < x402Price c10TinyCfg ∧
    ¬ (∀ (cfg : ApiConfig) (n : ℤ), pushedMicro cfg = some n → 0 < n) := by
  have htok : tokenOf c10TinyCfg = some "0xttt" := rfl
  have hval : x402Price c10TinyCfg = 1 / 10000000 := by
    norm_num [x402Price, c10TinyCfg]
  have hx : x402Price c10TinyCfg * 1000000 = 1 / 10 := by
    rw [hval]
    norm_num
  have hfl : ⌊(1 : ℚ) / 10⌋ = 0 := by
    rw [Int.floor_eq_zero_iff]
    norm_num [Set.mem_Ico]
  have hround : roundHalfEven ((1 : ℚ) / 10) = 0 := by
    simp only [roundHalfEven, hfl]
    norm_num
  have hm : pushedMicro c10TinyCfg = some 0 := by
    simp only [pushedMicro, htok, hx, hround]
  refine ⟨?_, by norm_num [c10TinyCfg], by rw [hval]; norm_num, ?_⟩
  · simp only [pushedPrice, hm, Option.map_some']
    rfl
  · intro h
    exact absurd (h c10TinyCfg 0 hm) (lt_irrefl 0)

/-- C10 (amended): the numeric fallback logic is as claimed — with a
strictly positive multiplier the fallback-adjusted price
`update_x402_route` computes is strictly positive, a route whose
stored API price and token price are both zero-or-below (or missing)
pushes exactly the `$0.001000` fallback string, and a route loaded at
startup with an unreachable feed gets token price `0.000001` and API
price `0.000001 * multiplier` — but what reaches the gate is the
six-decimal rendering, so the advertised amount is guaranteed to be at
least one micro-dollar only when the adjusted price exceeds half a
micro-dollar. -/
theorem c10_pushed_price_positive :
    (∀ (cfg : ApiConfig) (q : ℚ),
      0 < cfg.price_multiplier.getD defaultPriceMultiplier →
      x402Price cfg = q → 0 < q) ∧
    (∀ cfg : ApiConfig, (tokenOf cfg).isSome →
      cfg.api_price_usd.getD 0 ≤ 0 → cfg.token_price_usd.getD 0 ≤ 0 →
      pushedPrice cfg = some "$0.001000") ∧
    (∀ mult : ℚ, initialLoadPrices none mult =
      (1 / 1000000, (1 / 1000000) * mult)) ∧
    (∀ (cfg : ApiConfig) (n : ℤ), pushedMicro cfg = some n →
      1 / 2 < x402Price cfg * 1000000 → 1 ≤ n) := by
  refine ⟨?_, ?_, fun mult => rfl, ?_⟩
  · intro cfg q hm hq
    simp only [x402Price] at hq
    by_cases h1 : cfg.api_price_usd.getD 0 ≤ 0
    · by_cases h2 : cfg.token_price_usd.getD 0 > 0
      · rw [if_pos h1, if_pos h2] at hq
        rw [← hq]
        exact mul_pos h2 hm
      · rw [if_pos h1, if_neg h2] at hq
        rw [← hq]
        norm_num
    · rw [if_neg h1] at hq
      rw [← hq]
      exact lt_of_not_le h1
  · intro cfg htok h1 h2
    obtain ⟨s, hs⟩ := Option.isSome_iff_exists.mp htok
    have hval : x402Price cfg = 1 / 1000 := by
      simp only [x402Price]
      rw [if_pos h1, if_neg (not_lt.mpr h2)]
    have hx : x402Price cfg * 1000000 = ((1000 : ℤ) : ℚ) := by
      rw [hval]
      norm_num
    simp only [pushedPrice, pushedMicro, hs, hx, roundHalfEven_intCast,
      Option.map_some']
    rfl
  · intro cfg n hm hhalf
    unfold pushedMicro at hm
    cases htok : tokenOf cfg with
    | none => rw [htok] at hm; simp at hm
    | some s =>
      rw [htok] at hm
      simp only [Option.some.injEq] at hm
      rw [← hm]
      exact roundHalfEven_pos hhalf

theorem c10_pushed_price_positive_witness :
    (0 : ℚ) < c1CfgW.price_multiplier.getD defaultPriceMultiplier ∧
    x402Price c1CfgW = 3 ∧ (0 : ℚ) < 3 ∧
    ((tokenOf c10ZeroCfg).isSome ∧
      pushedPrice c10ZeroCfg = some "$0.001000") ∧
    (pushedMicro c1CfgW = some 3000000 ∧
      (1 : ℚ) / 2 < x402Price c1CfgW * 1000000 ∧ (1 : ℤ) ≤ 3000000) := by
  have hval : x402Price c1CfgW = 3 := by
    norm_num [x402Price, c1CfgW]
  have hx : x402Price c1CfgW * 1000000 = ((3000000 : ℤ) : ℚ) := by
    rw [hval]
    norm_num
  have htok : tokenOf c1CfgW = some "0xtok" := rfl
  have hm : pushedMicro c1CfgW = some 3000000 := by
    simp only [pushedMicro, htok, hx, roundHalfEven_intCast]
  refine ⟨by decide, hval, ?_, ⟨by decide, ?_⟩, hm, ?_, ?_⟩
  · exact c10_pushed_price_positive.1 c1CfgW 3 (by decide) hval
  · exact c10_pushed_price_positive.2.1 c10ZeroCfg (by decide) (by decide)
      (by decide)
  · rw [hx]
    norm_num
  · exact c10_pushed_price_positive.2.2.2 c1CfgW 3000000 hm
      (by rw [hx]; norm_num)
